import Mathlib

/-!
Verification of the catan-tracker repository: a shallow embedding of
`catan_tracker/probabilities.py`, `catan_tracker/hex_tile.py`,
`catan_tracker/settlement.py` and the duplicate classes in
`catan_tracker/core.py`, together with theorems settling the spec claims.

Modelling conventions:
  * Python floats are modelled as exact rationals (every constant in the
    table is a small dyadic-free fraction n/36, and all arithmetic on them
    is sums and products of such fractions).
  * A raised Python exception is an `Except.error` carrying a `PyError`
    value that records the exception class name (always `ValueError` in
    this code base) and the message string (quote characters around
    interpolated values are omitted from the message text).
  * The argument `number` of `HexTile.__init__` is duck-typed in Python;
    the `isinstance(number, int)` branch is modelled by the inductive
    `PyNum` covering the integer and float cases the tests exercise.
  * A Python list passed to `Settlement.__init__` may contain non-HexTile
    items; an element is a `PyItem`, either a tile or a foreign object
    represented by its type name.  The `isinstance(hexes, list)` branch
    has no counterpart because the embedding types the argument as a list.
-/

/-- A raised Python exception: its class name and its message. -/
structure PyError where
  excType : String
  msg : String
deriving DecidableEq

deriving instance DecidableEq for Except

/-- Python `str.lower()`, written as a character-wise map so that it
reduces definitionally on literals. -/
def pyLower (s : String) : String := ⟨s.data.map Char.toLower⟩

/-- The `number` argument of `HexTile.__init__` before the isinstance
check: an int or a float. -/
inductive PyNum where
  | int (n : ℤ)
  | float (q : ℚ)
deriving DecidableEq

/-- A validated hex tile: normalized resource name and dice number
(fields are immutable, as in the source, which has no setters). -/
structure HexTile where
  resource : String
  number : ℤ
deriving DecidableEq

/-- `HexTile.VALID_RESOURCES` from `hex_tile.py`. -/
def VALID_RESOURCES : List String :=
  ["wood", "brick", "sheep", "wheat", "ore", "desert"]

/-- `HexTile.__init__` from `hex_tile.py`: lowercase the resource, check
membership in the valid set, check the number is an int, check the range
0..12, check it is not 7, then store. -/
def hexTile (resource : String) (number : PyNum) : Except PyError HexTile :=
  let r := pyLower resource
  if r ∈ VALID_RESOURCES then
    match number with
    | PyNum.float _ =>
        Except.error ⟨"ValueError", "Number must be an integer, got float"⟩
    | PyNum.int n =>
        if n < 0 ∨ n > 12 then
          Except.error ⟨"ValueError", "Number must be 0-12, got " ++ toString n⟩
        else if n = 7 then
          Except.error ⟨"ValueError", "Number cannot be 7 (robber!)"⟩
        else
          Except.ok ⟨r, n⟩
  else
    Except.error ⟨"ValueError",
      "Invalid resource " ++ r ++
        ". Must be one of: brick, desert, ore, sheep, wheat, wood"⟩

/-- `ROLL_PROBABILITIES` from `probabilities.py`: the eleven-entry 2d6
table, keys 2..12. -/
def ROLL_PROBABILITIES : List (ℤ × ℚ) :=
  [(2, 1/36), (3, 2/36), (4, 3/36), (5, 4/36), (6, 5/36), (7, 6/36),
   (8, 5/36), (9, 4/36), (10, 3/36), (11, 2/36), (12, 1/36)]

/-- `ROLL_PROBABILITIES.get(n, 0)`: dictionary lookup with default 0. -/
def probGet (n : ℤ) : ℚ :=
  match ROLL_PROBABILITIES.find? (fun p => p.1 == n) with
  | some p => p.2
  | none => 0

/-- `sum(ROLL_PROBABILITIES.values())` from `validate_probabilities`. -/
def rollProbSum : ℚ :=
  (ROLL_PROBABILITIES.map (fun p => p.2)).sum

/-- `validate_probabilities` from `probabilities.py`: fail if the table
sum deviates from 1.0 by more than 0.0001, else return True.  It is
called once at module import time. -/
def validate_probabilities : Except PyError Bool :=
  if |rollProbSum - 1| > (1 : ℚ)/10000 then
    Except.error ⟨"ValueError",
      "Probabilities sum to " ++ toString rollProbSum ++ ", expected 1.0"⟩
  else
    Except.ok true

/-- An element of the list passed to `Settlement.__init__`: either a
HexTile or some other Python object, recorded by its type name. -/
inductive PyItem where
  | tile (h : HexTile)
  | nonTile (tyName : String)
deriving DecidableEq

/-- A constructed settlement: the stored hex list, the city flag, and
the multiplier cached at construction time. -/
structure Settlement where
  hexes : List HexTile
  is_city : Bool
  multiplier : ℤ
deriving DecidableEq

/-- The `for i, hex_tile in enumerate(hexes)` isinstance scan of
`Settlement.__init__`: index and type name of the first non-tile item. -/
def firstNonTile : List PyItem → ℕ → Option (ℕ × String)
  | [], _ => none
  | (PyItem.tile _) :: rest, i => firstNonTile rest (i + 1)
  | (PyItem.nonTile ty) :: _, i => some (i, ty)

/-- The HexTile values of a list of items (when `firstNonTile` found
nothing, this is the list itself). -/
def tilesOf (items : List PyItem) : List HexTile :=
  items.filterMap (fun it =>
    match it with
    | PyItem.tile h => some h
    | PyItem.nonTile _ => none)

/-- `Settlement.__init__` from `settlement.py`: reject fewer than 1 or
more than 3 hexes, reject any non-HexTile item, then store the list, the
flag and the derived multiplier. -/
def settlementInit (hexes : List PyItem) (is_city : Bool) :
    Except PyError Settlement :=
  if hexes.length < 1 ∨ hexes.length > 3 then
    Except.error ⟨"ValueError",
      "A settlement must touch 1-3 hexes, got " ++ toString hexes.length⟩
  else
    match firstNonTile hexes 0 with
    | some (i, ty) =>
        Except.error ⟨"ValueError",
          "All hexes must be HexTile objects. Item " ++ toString i ++
            " is " ++ ty⟩
    | none => Except.ok ⟨tilesOf hexes, is_city, if is_city then 2 else 1⟩

/-- `Settlement.expected_resources_per_roll` from `settlement.py`: for
each hex, if its number is positive add `ROLL_PROBABILITIES.get(number,
0) * multiplier` to the running total; a hex with number 0 adds
nothing. -/
def expected_resources_per_roll (s : Settlement) : ℚ :=
  (s.hexes.map (fun h =>
    if 0 < h.number then probGet h.number * (s.multiplier : ℚ) else 0)).sum

/-- The deduplicated resource-type set of
`expected_resources_weighted_by_diversity` (items with resource equal to
desert excluded). -/
def resource_types (s : Settlement) : List String :=
  ((s.hexes.filter (fun h => h.resource ≠ "desert")).map
    (fun h => h.resource)).dedup

/-- `len(resource_types)` in `expected_resources_weighted_by_diversity`. -/
def diversity_count (s : Settlement) : ℕ :=
  (resource_types s).length

/-- `Settlement.expected_resources_weighted_by_diversity` from
`settlement.py`: base expectation times the square root of the number of
distinct non-desert resource types. -/
noncomputable def expected_resources_weighted_by_diversity
    (s : Settlement) : ℝ :=
  (expected_resources_per_roll s : ℝ) * Real.sqrt (diversity_count s)

/-- The deduplicated dice-number set of
`probability_of_resources_on_roll` (hexes with number 0 excluded). -/
def unique_numbers (s : Settlement) : List ℤ :=
  ((s.hexes.filter (fun h => 0 < h.number)).map (fun h => h.number)).dedup

/-- `Settlement.probability_of_resources_on_roll` from `settlement.py`:
sum of `ROLL_PROBABILITIES.get(n, 0)` over the unique positive dice
numbers of the hexes. -/
def probability_of_resources_on_roll (s : Settlement) : ℚ :=
  ((unique_numbers s).map probGet).sum

/-! ### The duplicate classes of `core.py`

`core.py` contains its own copy of the probability table and of the
`Settlement` class.  The only textual difference in `Settlement.__init__`
is the hex-count check: `core.py` rejects only lists longer than 3 (the
empty list is accepted), with a different message.  The scoring methods
are textually identical to the ones in `settlement.py`. -/

/-- `ROLL_PROBABILITIES` as re-declared at the top of `core.py` (the
same eleven literals). -/
def core_ROLL_PROBABILITIES : List (ℤ × ℚ) :=
  [(2, 1/36), (3, 2/36), (4, 3/36), (5, 4/36), (6, 5/36), (7, 6/36),
   (8, 5/36), (9, 4/36), (10, 3/36), (11, 2/36), (12, 1/36)]

/-- Dictionary lookup with default 0 against the `core.py` table. -/
def core_probGet (n : ℤ) : ℚ :=
  match core_ROLL_PROBABILITIES.find? (fun p => p.1 == n) with
  | some p => p.2
  | none => 0

/-- `Settlement.__init__` from `core.py`: at most 3 hexes (zero is
allowed), every item a HexTile. -/
def core_settlementInit (hexes : List PyItem) (is_city : Bool) :
    Except PyError Settlement :=
  if hexes.length > 3 then
    Except.error ⟨"ValueError",
      "A settlement can touch at most 3 hexes, got " ++ toString hexes.length⟩
  else
    match firstNonTile hexes 0 with
    | some (i, ty) =>
        Except.error ⟨"ValueError",
          "All hexes must be HexTile objects. Item " ++ toString i ++
            " is " ++ ty⟩
    | none => Except.ok ⟨tilesOf hexes, is_city, if is_city then 2 else 1⟩

/-- `Settlement.expected_resources_per_roll` from `core.py`. -/
def core_expected_resources_per_roll (s : Settlement) : ℚ :=
  (s.hexes.map (fun h =>
    if 0 < h.number then core_probGet h.number * (s.multiplier : ℚ) else 0)).sum

/-- `Settlement.expected_resources_weighted_by_diversity` from
`core.py`. -/
noncomputable def core_expected_resources_weighted_by_diversity
    (s : Settlement) : ℝ :=
  (core_expected_resources_per_roll s : ℝ) *
    Real.sqrt (((s.hexes.filter (fun h => h.resource ≠ "desert")).map
      (fun h => h.resource)).dedup.length)

/-- `Settlement.probability_of_resources_on_roll` from `core.py`. -/
def core_probability_of_resources_on_roll (s : Settlement) : ℚ :=
  (((s.hexes.filter (fun h => 0 < h.number)).map
    (fun h => h.number)).dedup.map core_probGet).sum

/-! ### Spec-side formulas

The next two definitions follow the words of the claims being checked
against the code (sums over the NON-DESERT hexes, selected by the
`resource` field), for comparison with the implementation, which selects
by `number > 0`. -/

/-- Claim formula for `expected_resources_per_roll`: sum of
`probabilityOf(number) * multiplier` over each hex whose RESOURCE is not
desert. -/
def specExpectedNonDesert (s : Settlement) : ℚ :=
  ((s.hexes.filter (fun h => h.resource ≠ "desert")).map
    (fun h => probGet h.number * (s.multiplier : ℚ))).sum

/-- Claim formula for `probability_of_resources_on_roll`: sum of
`probabilityOf(n)` over the deduplicated dice numbers of the hexes whose
RESOURCE is not desert. -/
def specProbNonDesert (s : Settlement) : ℚ :=
  (((s.hexes.filter (fun h => h.resource ≠ "desert")).map
    (fun h => h.number)).dedup.map probGet).sum

/-- Projection of an `Except` onto the raised error, if any. -/
def errOf {α : Type} (x : Except PyError α) : Option PyError :=
  match x with
  | Except.error e => some e
  | Except.ok _ => none

/-! ### Evaluation lemmas for the probability table -/

lemma probGet_2 : probGet 2 = 1/36 := by
  simp [probGet, ROLL_PROBABILITIES, List.find?]

lemma probGet_3 : probGet 3 = 2/36 := by
  simp [probGet, ROLL_PROBABILITIES, List.find?]

lemma probGet_4 : probGet 4 = 3/36 := by
  simp [probGet, ROLL_PROBABILITIES, List.find?]

lemma probGet_5 : probGet 5 = 4/36 := by
  simp [probGet, ROLL_PROBABILITIES, List.find?]

lemma probGet_6 : probGet 6 = 5/36 := by
  simp [probGet, ROLL_PROBABILITIES, List.find?]

lemma probGet_7 : probGet 7 = 6/36 := by
  simp [probGet, ROLL_PROBABILITIES, List.find?]

lemma probGet_8 : probGet 8 = 5/36 := by
  simp [probGet, ROLL_PROBABILITIES, List.find?]

lemma probGet_9 : probGet 9 = 4/36 := by
  simp [probGet, ROLL_PROBABILITIES, List.find?]

lemma probGet_10 : probGet 10 = 3/36 := by
  simp [probGet, ROLL_PROBABILITIES, List.find?]

lemma probGet_11 : probGet 11 = 2/36 := by
  simp [probGet, ROLL_PROBABILITIES, List.find?]

lemma probGet_12 : probGet 12 = 1/36 := by
  simp [probGet, ROLL_PROBABILITIES, List.find?]

/-- Every value of the table lookup is between 0 and 6/36. -/
lemma probGet_bounds (n : ℤ) : 0 ≤ probGet n ∧ probGet n ≤ 6/36 := by
  unfold probGet
  cases hf : ROLL_PROBABILITIES.find? (fun p => p.1 == n) with
  | none => norm_num
  | some p =>
      have hmem : p ∈ ROLL_PROBABILITIES := List.mem_of_find?_eq_some hf
      simp only [ROLL_PROBABILITIES, List.mem_cons, List.not_mem_nil,
        or_false] at hmem
      rcases hmem with rfl | rfl | rfl | rfl | rfl | rfl | rfl | rfl |
        rfl | rfl | rfl <;> norm_num

/-! ### Structural lemmas about the constructors -/

lemma firstNonTile_map_tile (tiles : List HexTile) :
    ∀ i, firstNonTile (tiles.map PyItem.tile) i = none := by
  induction tiles with
  | nil => intro i; rfl
  | cons a t ih => intro i; simpa [firstNonTile] using ih (i + 1)

lemma tilesOf_map_tile (tiles : List HexTile) :
    tilesOf (tiles.map PyItem.tile) = tiles := by
  induction tiles with
  | nil => rfl
  | cons a t ih => simpa [tilesOf] using ih

/-- Inversion of a successful `settlement.py` construction. -/
lemma settlementInit_ok {items : List PyItem} {b : Bool} {s : Settlement}
    (h : settlementInit items b = Except.ok s) :
    s.hexes = tilesOf items ∧ s.is_city = b ∧
      s.multiplier = (if b then 2 else 1) ∧
      1 ≤ items.length ∧ items.length ≤ 3 := by
  unfold settlementInit at h
  split at h
  · simp at h
  · split at h
    · simp at h
    · rename_i hlen _ _
      injection h with h
      subst h
      refine ⟨rfl, rfl, rfl, ?_, ?_⟩ <;> omega

/-- Inversion of a successful `core.py` construction. -/
lemma core_settlementInit_ok {items : List PyItem} {b : Bool}
    {s : Settlement} (h : core_settlementInit items b = Except.ok s) :
    s.hexes = tilesOf items ∧ s.is_city = b ∧
      s.multiplier = (if b then 2 else 1) ∧ items.length ≤ 3 := by
  unfold core_settlementInit at h
  split at h
  · simp at h
  · split at h
    · simp at h
    · rename_i hlen _ _
      injection h with h
      subst h
      refine ⟨rfl, rfl, rfl, ?_⟩
      omega

/-- A sum of guarded terms is the sum over the filtered list. -/
lemma sum_map_ite {α : Type} (l : List α) (p : α → Prop) [DecidablePred p]
    (f : α → ℚ) :
    (l.map (fun a => if p a then f a else 0)).sum
      = ((l.filter (fun a => p a)).map f).sum := by
  induction l with
  | nil => rfl
  | cons a t ih => by_cases h : p a <;> simp [h, ih]

/-- Summing a function over a deduplicated list is the `Finset` sum over
the list seen as a set. -/
lemma sum_dedup_toFinset (l : List ℤ) (f : ℤ → ℚ) :
    (l.dedup.map f).sum = ∑ n ∈ l.toFinset, f n := by
  rw [← List.sum_toFinset f l.nodup_dedup]
  congr 1
  exact List.toFinset.ext (fun x => List.mem_dedup)

/-- The table re-declared in `core.py` computes the same lookups. -/
lemma core_probGet_eq : core_probGet = probGet := rfl

/-! ### Claim theorems -/

/-- Claim C1, counterexample: the constructor validates resource and
number independently, so a non-desert tile with the sentinel number 0
and a desert tile with a positive number are both accepted; the claimed
joint-consistency invariant fails on HexTile(wood, 0). -/
theorem hexTile_joint_consistency_cex :
    hexTile "wood" (PyNum.int 0) = Except.ok ⟨"wood", 0⟩ ∧
    hexTile "desert" (PyNum.int 6) = Except.ok ⟨"desert", 6⟩ ∧
    ("wood" : String) ≠ "desert" ∧
    (0 : ℤ) ∉ ({2, 3, 4, 5, 6, 8, 9, 10, 11, 12} : Finset ℤ) ∧
    (6 : ℤ) ≠ 0 :=
  ⟨rfl, rfl, by decide, by decide, by decide⟩

/-- Claim C1, amended: every successfully constructed HexTile stores one
of the six valid resources and an integer number in 0..12 other than 7;
resource and number are not cross-checked against each other.  (The
object is immutable after construction: the embedding has no mutating
operation, matching the absence of setters in the source.) -/
theorem hexTile_validation_range (resource : String) (number : PyNum)
    (t : HexTile) (h : hexTile resource number = Except.ok t) :
    t.resource ∈ VALID_RESOURCES ∧ 0 ≤ t.number ∧ t.number ≤ 12 ∧
      t.number ≠ 7 := by
  obtain ⟨tr, tn⟩ := t
  by_cases hmem : pyLower resource ∈ VALID_RESOURCES
  · cases number with
    | float q => exfalso; simp [hexTile, hmem] at h
    | int n =>
        by_cases hrange : n < 0 ∨ n > 12
        · exfalso; simp [hexTile, hmem, hrange] at h
        · by_cases h7 : n = 7
          · exfalso; simp [hexTile, hmem, hrange, h7] at h
          · simp [hexTile, hmem, hrange, h7] at h
            obtain ⟨h1, h2⟩ := h
            subst h1
            subst h2
            dsimp only
            exact ⟨hmem, by omega, by omega, h7⟩
  · exfalso; cases number <;> simp [hexTile, hmem] at h

/-- Witness for the amended C1 theorem at HexTile(wood, 6). -/
theorem hexTile_validation_range_witness :
    ("wood" : String) ∈ VALID_RESOURCES ∧ (0 : ℤ) ≤ 6 ∧ (6 : ℤ) ≤ 12 ∧
      (6 : ℤ) ≠ 7 :=
  hexTile_validation_range "wood" (PyNum.int 6) ⟨"wood", 6⟩ rfl

/-- Claim C2: `settlement.py` construction fails on an empty hex list
and on a list longer than 3 (with the count reported in the message),
and succeeds on every list of 1 to 3 HexTile values. -/
theorem settlement_count_validation :
    (∀ b : Bool, settlementInit [] b =
      Except.error ⟨"ValueError", "A settlement must touch 1-3 hexes, got 0"⟩) ∧
    (∀ (items : List PyItem) (b : Bool), 3 < items.length →
      settlementInit items b =
        Except.error ⟨"ValueError",
          "A settlement must touch 1-3 hexes, got " ++ toString items.length⟩) ∧
    (∀ (tiles : List HexTile) (b : Bool),
      1 ≤ tiles.length → tiles.length ≤ 3 →
      settlementInit (tiles.map PyItem.tile) b =
        Except.ok ⟨tiles, b, if b then 2 else 1⟩) := by
  refine ⟨fun b => rfl, ?_, ?_⟩
  · intro items b h
    unfold settlementInit
    rw [if_pos (Or.inr h)]
  · intro tiles b h1 h3
    unfold settlementInit
    rw [if_neg (by rw [List.length_map]; omega)]
    simp [firstNonTile_map_tile, tilesOf_map_tile]

/-- Witness for C2: a 4-hex list is rejected and a 1-hex list accepted. -/
theorem settlement_count_validation_witness :
    (3 < ([PyItem.tile ⟨"wood", 6⟩, PyItem.tile ⟨"brick", 8⟩,
        PyItem.tile ⟨"wheat", 9⟩, PyItem.tile ⟨"ore", 10⟩] : List PyItem).length ∧
      settlementInit [PyItem.tile ⟨"wood", 6⟩, PyItem.tile ⟨"brick", 8⟩,
          PyItem.tile ⟨"wheat", 9⟩, PyItem.tile ⟨"ore", 10⟩] false =
        Except.error ⟨"ValueError", "A settlement must touch 1-3 hexes, got 4"⟩) ∧
    settlementInit [PyItem.tile ⟨"wood", 6⟩] false =
      Except.ok ⟨[⟨"wood", 6⟩], false, 1⟩ :=
  ⟨⟨by decide,
    settlement_count_validation.2.1 [PyItem.tile ⟨"wood", 6⟩,
      PyItem.tile ⟨"brick", 8⟩, PyItem.tile ⟨"wheat", 9⟩,
      PyItem.tile ⟨"ore", 10⟩] false (by decide)⟩,
   settlement_count_validation.2.2 [⟨"wood", 6⟩] false (by decide) (by decide)⟩

/-- Claim C3, counterexample: a desert tile with a positive number is
accepted by both constructors, and `expected_resources_per_roll` counts
it (the code filters on `number > 0`, not on the resource), so the value
differs from the claimed sum over non-desert hexes. -/
theorem expected_nonDesert_cex :
    hexTile "desert" (PyNum.int 6) = Except.ok ⟨"desert", 6⟩ ∧
    settlementInit [PyItem.tile ⟨"desert", 6⟩] false =
      Except.ok ⟨[⟨"desert", 6⟩], false, 1⟩ ∧
    expected_resources_per_roll ⟨[⟨"desert", 6⟩], false, 1⟩ = 5/36 ∧
    specExpectedNonDesert ⟨[⟨"desert", 6⟩], false, 1⟩ = 0 ∧
    (5 : ℚ)/36 ≠ 0 := by
  refine ⟨rfl, rfl, ?_, ?_, by norm_num⟩
  · simp [expected_resources_per_roll, probGet_6]
  · simp [specExpectedNonDesert]

/-- Claim C3, amended: for every validly constructed settlement the
expectation is the sum of `probabilityOf(number) * multiplier` over the
hexes with positive number (hexes with number 0 contribute nothing); on
the hexes wood-6, brick-8, wheat-9 it is 14/36, and 28/36 as a city. -/
theorem expected_resources_formula (items : List PyItem) (b : Bool)
    (s : Settlement) (h : settlementInit items b = Except.ok s) :
    expected_resources_per_roll s
        = ((s.hexes.filter (fun x => 0 < x.number)).map
            (fun x => probGet x.number * (s.multiplier : ℚ))).sum ∧
    settlementInit [PyItem.tile ⟨"wood", 6⟩, PyItem.tile ⟨"brick", 8⟩,
        PyItem.tile ⟨"wheat", 9⟩] false =
      Except.ok ⟨[⟨"wood", 6⟩, ⟨"brick", 8⟩, ⟨"wheat", 9⟩], false, 1⟩ ∧
    expected_resources_per_roll
        ⟨[⟨"wood", 6⟩, ⟨"brick", 8⟩, ⟨"wheat", 9⟩], false, 1⟩ = 14/36 ∧
    settlementInit [PyItem.tile ⟨"wood", 6⟩, PyItem.tile ⟨"brick", 8⟩,
        PyItem.tile ⟨"wheat", 9⟩] true =
      Except.ok ⟨[⟨"wood", 6⟩, ⟨"brick", 8⟩, ⟨"wheat", 9⟩], true, 2⟩ ∧
    expected_resources_per_roll
        ⟨[⟨"wood", 6⟩, ⟨"brick", 8⟩, ⟨"wheat", 9⟩], true, 2⟩ = 28/36 := by
  refine ⟨?_, rfl, ?_, rfl, ?_⟩
  · unfold expected_resources_per_roll
    exact sum_map_ite s.hexes (fun x => 0 < x.number)
      (fun x => probGet x.number * (s.multiplier : ℚ))
  · simp [expected_resources_per_roll, probGet_6, probGet_8, probGet_9]
    norm_num
  · simp [expected_resources_per_roll, probGet_6, probGet_8, probGet_9]
    norm_num

/-- Witness for the amended C3 theorem at a one-hex settlement. -/
theorem expected_resources_formula_witness :
    expected_resources_per_roll ⟨[⟨"wood", 6⟩], false, 1⟩
        = ((([⟨"wood", 6⟩] : List HexTile).filter
              (fun x => 0 < x.number)).map
            (fun x => probGet x.number * ((1 : ℤ) : ℚ))).sum :=
  (expected_resources_formula [PyItem.tile ⟨"wood", 6⟩] false
    ⟨[⟨"wood", 6⟩], false, 1⟩ rfl).1

/-- Claim C4, counterexample: `probability_of_resources_on_roll` selects
hexes by `number > 0`, not by resource, so a desert tile carrying a
positive number is counted, contradicting the claimed sum over
non-desert hexes. -/
theorem prob_nonDesert_cex :
    hexTile "desert" (PyNum.int 6) = Except.ok ⟨"desert", 6⟩ ∧
    settlementInit [PyItem.tile ⟨"desert", 6⟩] false =
      Except.ok ⟨[⟨"desert", 6⟩], false, 1⟩ ∧
    probability_of_resources_on_roll ⟨[⟨"desert", 6⟩], false, 1⟩ = 5/36 ∧
    specProbNonDesert ⟨[⟨"desert", 6⟩], false, 1⟩ = 0 ∧
    (5 : ℚ)/36 ≠ 0 := by
  refine ⟨rfl, rfl, ?_, ?_, by norm_num⟩
  · simp [probability_of_resources_on_roll, unique_numbers, probGet_6]
  · simp [specProbNonDesert]

/-- Claim C4, amended: for every validly constructed settlement the
value is the sum of `probabilityOf(n)` over the SET of dice numbers of
the hexes with positive number, each distinct number counted exactly
once however many hexes share it; on wood-6, sheep-6, brick-8 it is
10/36, not 15/36. -/
theorem prob_on_roll_dedup_formula (items : List PyItem) (b : Bool)
    (s : Settlement) (h : settlementInit items b = Except.ok s) :
    probability_of_resources_on_roll s
        = ∑ n ∈ ((s.hexes.filter (fun x => 0 < x.number)).map
            (fun x => x.number)).toFinset, probGet n ∧
    settlementInit [PyItem.tile ⟨"wood", 6⟩, PyItem.tile ⟨"sheep", 6⟩,
        PyItem.tile ⟨"brick", 8⟩] false =
      Except.ok ⟨[⟨"wood", 6⟩, ⟨"sheep", 6⟩, ⟨"brick", 8⟩], false, 1⟩ ∧
    probability_of_resources_on_roll
        ⟨[⟨"wood", 6⟩, ⟨"sheep", 6⟩, ⟨"brick", 8⟩], false, 1⟩ = 10/36 ∧
    (10 : ℚ)/36 ≠ 15/36 := by
  refine ⟨?_, rfl, ?_, by norm_num⟩
  · unfold probability_of_resources_on_roll unique_numbers
    exact sum_dedup_toFinset _ probGet
  · simp [probability_of_resources_on_roll, unique_numbers, List.dedup,
      probGet_6, probGet_8]
    norm_num [probGet_6, probGet_8]

/-- Witness for the amended C4 theorem at a one-hex settlement. -/
theorem prob_on_roll_dedup_formula_witness :
    probability_of_resources_on_roll ⟨[⟨"wood", 6⟩], false, 1⟩
        = ∑ n ∈ ((([⟨"wood", 6⟩] : List HexTile).filter
            (fun x => 0 < x.number)).map (fun x => x.number)).toFinset,
          probGet n :=
  (prob_on_roll_dedup_formula [PyItem.tile ⟨"wood", 6⟩] false
    ⟨[⟨"wood", 6⟩], false, 1⟩ rfl).1

/-- Claim C5, counterexample: a 3-hex city on the numbers 6, 8, 6 has
expectation 30/36, outside the claimed interval [0, 2 * 6/36]. -/
theorem expected_bound_cex :
    settlementInit [PyItem.tile ⟨"wood", 6⟩, PyItem.tile ⟨"brick", 8⟩,
        PyItem.tile ⟨"sheep", 6⟩] true =
      Except.ok ⟨[⟨"wood", 6⟩, ⟨"brick", 8⟩, ⟨"sheep", 6⟩], true, 2⟩ ∧
    expected_resources_per_roll
        ⟨[⟨"wood", 6⟩, ⟨"brick", 8⟩, ⟨"sheep", 6⟩], true, 2⟩ = 30/36 ∧
    ¬ ((30 : ℚ)/36 ≤ 2 * (6/36)) := by
  refine ⟨rfl, ?_, by norm_num⟩
  simp [expected_resources_per_roll, probGet_6, probGet_8]
  norm_num

/-- Claim C5, amended: for every validly constructed 3-hex settlement or
city the expectation lies in [0, 3 * (2 * 6/36)]; the claimed 2 * 6/36
bounds each per-hex addend, not their sum. -/
theorem expected_three_hex_bound (items : List PyItem) (b : Bool)
    (s : Settlement) (h : settlementInit items b = Except.ok s)
    (h3 : s.hexes.length = 3) :
    0 ≤ expected_resources_per_roll s ∧
      expected_resources_per_roll s ≤ 3 * (2 * (6/36)) := by
  obtain ⟨-, -, hm, -, -⟩ := settlementInit_ok h
  have hm0 : (0 : ℚ) ≤ (s.multiplier : ℚ) := by
    rw [hm]; cases b <;> norm_num
  have hm2 : (s.multiplier : ℚ) ≤ 2 := by
    rw [hm]; cases b <;> norm_num
  have hel : ∀ x ∈ s.hexes.map (fun x =>
      if 0 < x.number then probGet x.number * (s.multiplier : ℚ) else 0),
      0 ≤ x ∧ x ≤ 2 * (6/36) := by
    intro x hx
    obtain ⟨y, -, rfl⟩ := List.mem_map.mp hx
    by_cases hy : 0 < y.number
    · obtain ⟨hp0, hp6⟩ := probGet_bounds y.number
      rw [if_pos hy]
      constructor
      · exact mul_nonneg hp0 hm0
      · calc probGet y.number * (s.multiplier : ℚ)
            ≤ (6/36) * 2 := mul_le_mul hp6 hm2 hm0 (by norm_num)
          _ = 2 * (6/36) := by ring
    · rw [if_neg hy]
      norm_num
  constructor
  · exact List.sum_nonneg (fun x hx => (hel x hx).1)
  · calc (s.hexes.map (fun x =>
          if 0 < x.number then probGet x.number * (s.multiplier : ℚ)
          else 0)).sum
        ≤ (s.hexes.map (fun x =>
            if 0 < x.number then probGet x.number * (s.multiplier : ℚ)
            else 0)).length • (2 * (6/36) : ℚ) :=
          List.sum_le_card_nsmul _ _ (fun x hx => (hel x hx).2)
      _ = 3 * (2 * (6/36)) := by
          rw [List.length_map, h3]
          simp [nsmul_eq_mul]

/-- Witness for the amended C5 theorem at a 3-hex settlement. -/
theorem expected_three_hex_bound_witness :
    settlementInit [PyItem.tile ⟨"wood", 6⟩, PyItem.tile ⟨"brick", 8⟩,
        PyItem.tile ⟨"wheat", 9⟩] false =
      Except.ok ⟨[⟨"wood", 6⟩, ⟨"brick", 8⟩, ⟨"wheat", 9⟩], false, 1⟩ ∧
    (0 ≤ expected_resources_per_roll
        ⟨[⟨"wood", 6⟩, ⟨"brick", 8⟩, ⟨"wheat", 9⟩], false, 1⟩ ∧
      expected_resources_per_roll
        ⟨[⟨"wood", 6⟩, ⟨"brick", 8⟩, ⟨"wheat", 9⟩], false, 1⟩
          ≤ 3 * (2 * (6/36))) :=
  ⟨rfl, expected_three_hex_bound
    [PyItem.tile ⟨"wood", 6⟩, PyItem.tile ⟨"brick", 8⟩,
      PyItem.tile ⟨"wheat", 9⟩] false
    ⟨[⟨"wood", 6⟩, ⟨"brick", 8⟩, ⟨"wheat", 9⟩], false, 1⟩ rfl rfl⟩

/-- Claim C6, counterexample: three different failure conditions (bad
resource, robber number, empty settlement) all raise the one exception
class ValueError; the failure conditions are not distinct error types. -/
theorem single_error_type_cex :
    errOf (hexTile "gold" (PyNum.int 6)) ≠ none ∧
    errOf (hexTile "wood" (PyNum.int 7)) ≠ none ∧
    errOf (settlementInit [] false) ≠ none ∧
    (errOf (hexTile "gold" (PyNum.int 6))).map PyError.excType
      = some "ValueError" ∧
    (errOf (hexTile "wood" (PyNum.int 7))).map PyError.excType
      = some "ValueError" ∧
    (errOf (settlementInit [] false)).map PyError.excType
      = some "ValueError" :=
  ⟨by decide, by decide, by decide, rfl, rfl, rfl⟩

/-- Claim C6, amended: the seven failure conditions are discriminable
only by their messages, which are pairwise distinct; every one of them
is raised as the single shared exception type ValueError. -/
theorem error_conditions_discriminable :
    errOf (hexTile "gold" (PyNum.int 6)) = some ⟨"ValueError",
      "Invalid resource gold. Must be one of: brick, desert, ore, sheep, wheat, wood"⟩ ∧
    errOf (hexTile "wood" (PyNum.float (13/2))) = some ⟨"ValueError",
      "Number must be an integer, got float"⟩ ∧
    errOf (hexTile "wood" (PyNum.int 13)) = some ⟨"ValueError",
      "Number must be 0-12, got 13"⟩ ∧
    errOf (hexTile "wood" (PyNum.int 7)) = some ⟨"ValueError",
      "Number cannot be 7 (robber!)"⟩ ∧
    errOf (settlementInit [] false) = some ⟨"ValueError",
      "A settlement must touch 1-3 hexes, got 0"⟩ ∧
    errOf (settlementInit [PyItem.tile ⟨"wood", 6⟩, PyItem.tile ⟨"brick", 8⟩,
        PyItem.tile ⟨"wheat", 9⟩, PyItem.tile ⟨"ore", 10⟩] false)
      = some ⟨"ValueError", "A settlement must touch 1-3 hexes, got 4"⟩ ∧
    errOf (settlementInit [PyItem.nonTile "str"] false) = some ⟨"ValueError",
      "All hexes must be HexTile objects. Item 0 is str"⟩ ∧
    ([ "Invalid resource gold. Must be one of: brick, desert, ore, sheep, wheat, wood",
       "Number must be an integer, got float",
       "Number must be 0-12, got 13",
       "Number cannot be 7 (robber!)",
       "A settlement must touch 1-3 hexes, got 0",
       "A settlement must touch 1-3 hexes, got 4",
       "All hexes must be HexTile objects. Item 0 is str" ] : List String).Nodup :=
  ⟨rfl, rfl, rfl, rfl, rfl, rfl, rfl, by decide⟩

/-- Claim C7: the table maps every dice sum 2..12 to (ways to roll
n)/36, the sum is 1 within the 1e-4 tolerance so the import-time
self-check succeeds, 7 carries the unique maximum probability, and the
distribution is symmetric about 7. -/
theorem roll_probability_table_props :
    (∀ n : ℤ, 2 ≤ n → n ≤ 12 → probGet n = ((6 - |n - 7| : ℤ) : ℚ) / 36) ∧
    |rollProbSum - 1| ≤ (1 : ℚ)/10000 ∧
    validate_probabilities = Except.ok true ∧
    (∀ n : ℤ, 2 ≤ n → n ≤ 12 → n ≠ 7 → probGet n < probGet 7) ∧
    (∀ n : ℤ, 2 ≤ n → n ≤ 12 → probGet n = probGet (14 - n)) := by
  have hsum : rollProbSum = 1 := by
    simp [rollProbSum, ROLL_PROBABILITIES]
    norm_num
  refine ⟨?_, by rw [hsum]; norm_num, by simp [validate_probabilities, hsum],
    ?_, ?_⟩
  · intro n h1 h2
    interval_cases n
    · norm_num [probGet_2]
    · norm_num [probGet_3]
    · norm_num [probGet_4]
    · norm_num [probGet_5]
    · norm_num [probGet_6]
    · norm_num [probGet_7]
    · norm_num [probGet_8]
    · norm_num [probGet_9]
    · norm_num [probGet_10]
    · norm_num [probGet_11]
    · norm_num [probGet_12]
  · intro n h1 h2 hne
    interval_cases n
    · norm_num [probGet_2, probGet_7]
    · norm_num [probGet_3, probGet_7]
    · norm_num [probGet_4, probGet_7]
    · norm_num [probGet_5, probGet_7]
    · norm_num [probGet_6, probGet_7]
    · exact absurd rfl hne
    · norm_num [probGet_8, probGet_7]
    · norm_num [probGet_9, probGet_7]
    · norm_num [probGet_10, probGet_7]
    · norm_num [probGet_11, probGet_7]
    · norm_num [probGet_12, probGet_7]
  · intro n h1 h2
    interval_cases n
    · norm_num [probGet_2, probGet_12]
    · norm_num [probGet_3, probGet_11]
    · norm_num [probGet_4, probGet_10]
    · norm_num [probGet_5, probGet_9]
    · norm_num [probGet_6, probGet_8]
    · norm_num [probGet_7]
    · norm_num [probGet_8, probGet_6]
    · norm_num [probGet_9, probGet_5]
    · norm_num [probGet_10, probGet_4]
    · norm_num [probGet_11, probGet_3]
    · norm_num [probGet_12, probGet_2]

/-- Witness for C7 at the dice sums 6, 5 and 8. -/
theorem roll_probability_table_props_witness :
    probGet 6 = ((6 - |(6 : ℤ) - 7| : ℤ) : ℚ) / 36 ∧
    probGet 6 < probGet 7 ∧
    probGet 5 = probGet (14 - 5) :=
  ⟨roll_probability_table_props.1 6 (by norm_num) (by norm_num),
   roll_probability_table_props.2.2.2.1 6 (by norm_num) (by norm_num)
     (by norm_num),
   roll_probability_table_props.2.2.2.2 5 (by norm_num) (by norm_num)⟩

/-- Claim C8: `probability_of_resources_on_roll` does not read the city
flag or the multiplier, so the settlement and the city built from the
same hex list score identically on it. -/
theorem prob_on_roll_city_invariant (items : List PyItem)
    (s c : Settlement) (hs : settlementInit items false = Except.ok s)
    (hc : settlementInit items true = Except.ok c) :
    probability_of_resources_on_roll s
      = probability_of_resources_on_roll c := by
  obtain ⟨hs1, -, -, -, -⟩ := settlementInit_ok hs
  obtain ⟨hc1, -, -, -, -⟩ := settlementInit_ok hc
  unfold probability_of_resources_on_roll unique_numbers
  rw [hs1, hc1]

/-- Witness for C8 at the hexes wood-6, brick-8. -/
theorem prob_on_roll_city_invariant_witness :
    settlementInit [PyItem.tile ⟨"wood", 6⟩, PyItem.tile ⟨"brick", 8⟩] false
      = Except.ok ⟨[⟨"wood", 6⟩, ⟨"brick", 8⟩], false, 1⟩ ∧
    settlementInit [PyItem.tile ⟨"wood", 6⟩, PyItem.tile ⟨"brick", 8⟩] true
      = Except.ok ⟨[⟨"wood", 6⟩, ⟨"brick", 8⟩], true, 2⟩ ∧
    probability_of_resources_on_roll ⟨[⟨"wood", 6⟩, ⟨"brick", 8⟩], false, 1⟩
      = probability_of_resources_on_roll ⟨[⟨"wood", 6⟩, ⟨"brick", 8⟩], true, 2⟩ :=
  ⟨rfl, rfl,
   prob_on_roll_city_invariant
     [PyItem.tile ⟨"wood", 6⟩, PyItem.tile ⟨"brick", 8⟩]
     ⟨[⟨"wood", 6⟩, ⟨"brick", 8⟩], false, 1⟩
     ⟨[⟨"wood", 6⟩, ⟨"brick", 8⟩], true, 2⟩ rfl rfl⟩

/-- Claim C9, counterexample: the two Settlement constructors do not
accept the same inputs; `core.py` accepts the empty hex list while
`settlement.py` rejects it. -/
theorem settlement_variants_cex :
    core_settlementInit [] false = Except.ok ⟨[], false, 1⟩ ∧
    settlementInit [] false =
      Except.error ⟨"ValueError", "A settlement must touch 1-3 hexes, got 0"⟩ :=
  ⟨rfl, rfl⟩

/-- Claim C9, amended: on every nonempty input list the two constructors
accept or reject together; the empty list is the sole divergence (core
accepts it, settlement.py refuses it); and whenever both accept, they
build the same object and the three scoring methods agree. -/
theorem settlement_variants_equiv (items : List PyItem) (b : Bool) :
    (items ≠ [] →
      ((core_settlementInit items b).toOption.isSome = true ↔
        (settlementInit items b).toOption.isSome = true)) ∧
    ((core_settlementInit [] b).toOption.isSome = true ∧
      (settlementInit [] b).toOption.isSome = false) ∧
    (∀ s₁ s₂ : Settlement, core_settlementInit items b = Except.ok s₁ →
      settlementInit items b = Except.ok s₂ →
      s₁ = s₂ ∧
      core_expected_resources_per_roll s₁ = expected_resources_per_roll s₂ ∧
      core_expected_resources_weighted_by_diversity s₁
        = expected_resources_weighted_by_diversity s₂ ∧
      core_probability_of_resources_on_roll s₁
        = probability_of_resources_on_roll s₂) := by
  refine ⟨?_, ⟨rfl, rfl⟩, ?_⟩
  · intro hne
    have hpos : 0 < items.length := List.length_pos.mpr hne
    unfold core_settlementInit settlementInit
    by_cases h3 : items.length > 3
    · rw [if_pos h3, if_pos (Or.inr h3)]
      simp [Except.toOption]
    · rw [if_neg h3,
        if_neg (show ¬(items.length < 1 ∨ items.length > 3) by omega)]
  · intro s₁ s₂ h₁ h₂
    obtain ⟨ha1, ha2, ha3, -⟩ := core_settlementInit_ok h₁
    obtain ⟨hb1, hb2, hb3, -, -⟩ := settlementInit_ok h₂
    have hs : s₁ = s₂ := by
      cases s₁
      cases s₂
      simp_all
    subst hs
    exact ⟨rfl, rfl, rfl, rfl⟩

/-- Witness for the amended C9 theorem at the one-hex list wood-6. -/
theorem settlement_variants_equiv_witness :
    (([PyItem.tile ⟨"wood", 6⟩] : List PyItem) ≠ []) ∧
    ((core_settlementInit [PyItem.tile ⟨"wood", 6⟩] false).toOption.isSome = true
      ↔ (settlementInit [PyItem.tile ⟨"wood", 6⟩] false).toOption.isSome = true) ∧
    ((⟨[⟨"wood", 6⟩], false, 1⟩ : Settlement) = ⟨[⟨"wood", 6⟩], false, 1⟩ ∧
      core_expected_resources_per_roll ⟨[⟨"wood", 6⟩], false, 1⟩
        = expected_resources_per_roll ⟨[⟨"wood", 6⟩], false, 1⟩ ∧
      core_expected_resources_weighted_by_diversity ⟨[⟨"wood", 6⟩], false, 1⟩
        = expected_resources_weighted_by_diversity ⟨[⟨"wood", 6⟩], false, 1⟩ ∧
      core_probability_of_resources_on_roll ⟨[⟨"wood", 6⟩], false, 1⟩
        = probability_of_resources_on_roll ⟨[⟨"wood", 6⟩], false, 1⟩) :=
  ⟨by decide,
   (settlement_variants_equiv [PyItem.tile ⟨"wood", 6⟩] false).1 (by decide),
   (settlement_variants_equiv [PyItem.tile ⟨"wood", 6⟩] false).2.2
     ⟨[⟨"wood", 6⟩], false, 1⟩ ⟨[⟨"wood", 6⟩], false, 1⟩ rfl rfl⟩

/-- Claim C10: HexTile(wood, 0) is constructible; in any settlement a
non-desert hex with number 0 contributes 0 to the expectation and is
absent from the unique-number set, yet its resource belongs to the
diversity set; concretely, adding wood-0 to a brick-6 settlement leaves
the expectation and the roll probability unchanged while raising the
diversity count from 1 to 2, so the diversity-weighted score gains a
factor of sqrt 2. -/
theorem zero_number_hex_behavior :
    hexTile "wood" (PyNum.int 0) = Except.ok ⟨"wood", 0⟩ ∧
    (∀ (s : Settlement) (x : HexTile), x ∈ s.hexes →
      x.resource ≠ "desert" → x.number = 0 →
      (if 0 < x.number then probGet x.number * (s.multiplier : ℚ) else 0) = 0 ∧
      x.number ∉ unique_numbers s ∧
      x.resource ∈ resource_types s) ∧
    settlementInit [PyItem.tile ⟨"brick", 6⟩, PyItem.tile ⟨"wood", 0⟩] false
      = Except.ok ⟨[⟨"brick", 6⟩, ⟨"wood", 0⟩], false, 1⟩ ∧
    expected_resources_per_roll ⟨[⟨"brick", 6⟩, ⟨"wood", 0⟩], false, 1⟩
      = expected_resources_per_roll ⟨[⟨"brick", 6⟩], false, 1⟩ ∧
    probability_of_resources_on_roll ⟨[⟨"brick", 6⟩, ⟨"wood", 0⟩], false, 1⟩
      = probability_of_resources_on_roll ⟨[⟨"brick", 6⟩], false, 1⟩ ∧
    diversity_count ⟨[⟨"brick", 6⟩, ⟨"wood", 0⟩], false, 1⟩ = 2 ∧
    diversity_count ⟨[⟨"brick", 6⟩], false, 1⟩ = 1 ∧
    expected_resources_weighted_by_diversity
        ⟨[⟨"brick", 6⟩, ⟨"wood", 0⟩], false, 1⟩
      = (expected_resources_per_roll ⟨[⟨"brick", 6⟩], false, 1⟩ : ℝ)
          * Real.sqrt 2 := by
  have hd2 : diversity_count ⟨[⟨"brick", 6⟩, ⟨"wood", 0⟩], false, 1⟩ = 2 := by
    decide
  have hexp : expected_resources_per_roll
      ⟨[⟨"brick", 6⟩, ⟨"wood", 0⟩], false, 1⟩
        = expected_resources_per_roll ⟨[⟨"brick", 6⟩], false, 1⟩ := by
    simp [expected_resources_per_roll]
  refine ⟨rfl, ?_, rfl, hexp, ?_, hd2, by decide, ?_⟩
  · intro s x hx hres hnum
    refine ⟨by rw [hnum]; norm_num, ?_, ?_⟩
    · intro hmem
      simp [unique_numbers, List.mem_dedup, List.mem_map,
        List.mem_filter] at hmem
      obtain ⟨y, ⟨hy1, hy2⟩, hy3⟩ := hmem
      rw [hnum] at hy3
      omega
    · simp [resource_types, List.mem_dedup, List.mem_map, List.mem_filter]
      exact ⟨x, ⟨hx, hres⟩, rfl⟩
  · simp [probability_of_resources_on_roll, unique_numbers, List.dedup]
  · unfold expected_resources_weighted_by_diversity
    rw [hd2, hexp]
    norm_num

/-- Witness for C10 at the wood-0 hex of the brick-6 plus wood-0
settlement. -/
theorem zero_number_hex_behavior_witness :
    ((⟨"wood", 0⟩ : HexTile) ∈
      (⟨[⟨"brick", 6⟩, ⟨"wood", 0⟩], false, 1⟩ : Settlement).hexes) ∧
    (if 0 < (⟨"wood", 0⟩ : HexTile).number then
        probGet (⟨"wood", 0⟩ : HexTile).number
          * (((⟨[⟨"brick", 6⟩, ⟨"wood", 0⟩], false, 1⟩ : Settlement).multiplier : ℤ) : ℚ)
      else 0) = 0 ∧
    (⟨"wood", 0⟩ : HexTile).number
      ∉ unique_numbers ⟨[⟨"brick", 6⟩, ⟨"wood", 0⟩], false, 1⟩ ∧
    (⟨"wood", 0⟩ : HexTile).resource
      ∈ resource_types ⟨[⟨"brick", 6⟩, ⟨"wood", 0⟩], false, 1⟩ :=
  ⟨by decide,
   (zero_number_hex_behavior.2.1 ⟨[⟨"brick", 6⟩, ⟨"wood", 0⟩], false, 1⟩
     ⟨"wood", 0⟩ (by decide) (by decide) rfl).1,
   (zero_number_hex_behavior.2.1 ⟨[⟨"brick", 6⟩, ⟨"wood", 0⟩], false, 1⟩
     ⟨"wood", 0⟩ (by decide) (by decide) rfl).2.1,
   (zero_number_hex_behavior.2.1 ⟨[⟨"brick", 6⟩, ⟨"wood", 0⟩], false, 1⟩
     ⟨"wood", 0⟩ (by decide) (by decide) rfl).2.2⟩
